import Mathlib

/-!
Shallow embedding of the versiontheca version library (m2osw/versiontheca)
and proofs about the claims of its specification.

The embedding follows the C++ sources:
  * `part.cpp` / `part.h`   : the `Part` structure and its operations;
  * `trait.cpp` / `trait.h` : the bounded part vector operations and the
    generic tokenizer (`parse`, `parse_version`, `parse_value`);
  * `debian.cpp`            : the Debian scheme (parse, compare, next,
    previous, to_string);
  * `rpm.cpp` / `rpm_order.cpp` : the RPM scheme (parse, compare and the
    character order table produced by the generator in `rpm_order.cpp`);
  * `roman.cpp`             : the Roman-numeral codec;
  * `versiontheca.cpp`      : the façade (`set_version`, `next`, `previous`).

Machine integers (`part_integer_t = std::uint32_t`) are modelled as `Nat`
with explicit reduction modulo `2^32` where the C++ arithmetic can wrap.
C++ control flow with three possible outcomes is modelled with `CppResult`:
`ok` for a successful return, `err` for a `false` return that stores a
message in `f_last_error`, and `thrown` for a C++ exception propagating out
of the function.
-/

namespace Versiontheca

/-- Outcome of a C++ member function: success, a `false` return with the
`f_last_error` message, or a thrown exception carrying its message. -/
inductive CppResult (α : Type) where
  | ok (value : α)
  | err (msg : String)
  | thrown (msg : String)
deriving Repr, DecidableEq

/-- The NUL character, written `'\0'` in the C++ sources. -/
def NUL : Char := Char.ofNat 0

/-- Modulus of `part_integer_t` (`std::uint32_t`). -/
def U32_MOD : Nat := 4294967296

/-- `std::numeric_limits<std::uint32_t>::max()`. -/
def U32_MAX : Nat := 4294967295

/-- `MAX_PARTS` from `part.h`. -/
def MAX_PARTS : Nat := 25

/-- Conversion of a `std::uint32_t` value to a C++ `int` (two's complement
wrap-around, as all mainstream compilers implement it).  `debian::compare`
and `rpm::compare` store `get_integer()` results in `int` variables. -/
def toInt32 (n : Nat) : Int :=
  if n % U32_MOD < 2147483648 then ((n % U32_MOD : Nat) : Int)
  else ((n % U32_MOD : Nat) : Int) - (U32_MOD : Int)

/-- Is `c` an ASCII digit (`*s >= '0' && *s <= '9'` in the sources)? -/
def isDigitChar (c : Char) : Bool := '0' ≤ c && c ≤ '9'

/-- One labeled segment of a version: `class part` of `part.h`, with the
field defaults of the C++ member initializers. -/
structure Part where
  separator : Char := NUL
  width : Nat := 0
  ptype : Char := NUL
  isInteger : Bool := true
  integer : Nat := 0
  str : String := ""
deriving Repr, DecidableEq

/-- A fresh `part p;` with the C++ defaults. -/
def Part.init : Part := {}

/-- `part::set_string`: unconditional switch to string mode. -/
def Part.set_string (p : Part) (value : String) : Part :=
  { p with isInteger := false, integer := 0, str := value }

/-- `part::set_integer`: unconditional switch to integer mode. -/
def Part.set_integer (p : Part) (value : Nat) : Part :=
  { p with isInteger := true, integer := value, str := "" }

/-- `part::set_to_max_integer`. -/
def Part.set_to_max_integer (p : Part) : Part := p.set_integer U32_MAX

/-- `part::set_to_max_string(len)`: a string of `len` letters `z`. -/
def Part.set_to_max_string (p : Part) (len : Nat) : Part :=
  p.set_string ⟨List.replicate len 'z'⟩

/-- The digit-accumulation loop of `part::set_value`: `integer` is the
`part_integer_t` accumulator (kept reduced modulo `2^32`); a decrease of the
wrapped accumulator is reported as the integer-too-large error; the first
non-digit character makes the whole `value` a string. -/
def Part.set_value_loop (p : Part) (value : String) :
    List Char → Nat → CppResult Part
  | [], integer => .ok (p.set_integer integer)
  | c :: rest, integer =>
    if isDigitChar c then
      let old := integer
      let integer2 := (integer * 10 + (c.toNat - '0'.toNat)) % U32_MOD
      if integer2 < old then
        .err "integer too large for a valid version."
      else
        p.set_value_loop value rest integer2
    else
      .ok (p.set_string value)

/-- `part::set_value`. -/
def Part.set_value (p : Part) (value : String) : CppResult Part :=
  p.set_value_loop value value.data 0

/-- Lexicographic three-way comparison of character lists, as
`std::string::compare` / `operator<` perform on the ASCII strings
produced by this library. -/
def lexCmp : List Char → List Char → Int
  | [], [] => 0
  | [], _ :: _ => -1
  | _ :: _, [] => 1
  | a :: as, b :: bs =>
    if a < b then -1 else if b < a then 1 else lexCmp as bs

/-- `part::to_string`: the integer printed in decimal, or the string. -/
def Part.to_string (p : Part) : String :=
  if p.isInteger then toString p.integer else p.str

/-- `part::compare`: integer-vs-integer by value, any other combination by
lexicographic comparison of the `to_string()` texts. -/
def Part.cmp (p rhs : Part) : Int :=
  if p.isInteger && rhs.isInteger then
    if p.integer < rhs.integer then -1
    else if rhs.integer < p.integer then 1
    else 0
  else
    lexCmp (p.to_string).data (rhs.to_string).data

/-- `part::is_zero`: integer `0`, or a string whose characters are all `a`. -/
def Part.is_zero (p : Part) : Bool :=
  if p.isInteger then p.integer = 0 else p.str.data.all (· = 'a')

/-- Scan of `part::next` over the reversed character list: a lowercase
letter below `z` is incremented and the scan stops; a `z` becomes a `a`
and the carry moves left; any other character is skipped. -/
def incLowerRev : List Char → List Char
  | [] => []
  | c :: rest =>
    if 'a' ≤ c ∧ c < 'z' then Char.ofNat (c.toNat + 1) :: rest
    else if c = 'z' then 'a' :: incLowerRev rest
    else c :: incLowerRev rest

/-- Scan of `part::previous` over the reversed character list. -/
def decLowerRev : List Char → List Char
  | [] => []
  | c :: rest =>
    if 'a' < c ∧ c ≤ 'z' then Char.ofNat (c.toNat - 1) :: rest
    else if c = 'a' then 'z' :: decLowerRev rest
    else c :: decLowerRev rest

/-- `part::next`: integer mode saturates at `u32::MAX`; string mode runs the
lowercase carry scan and keeps the original string when the scan did not
produce a strictly larger string (`if(s <= f_string) return false`). -/
def Part.next (p : Part) : Bool × Part :=
  if p.isInteger then
    if U32_MAX ≤ p.integer then (false, p)
    else (true, { p with integer := p.integer + 1 })
  else
    let s : List Char := (incLowerRev p.str.data.reverse).reverse
    if lexCmp s p.str.data ≤ 0 then (false, p)
    else (true, { p with str := ⟨s⟩ })

/-- `part::previous`: integer mode saturates at `0`; string mode runs the
lowercase borrow scan and keeps the original string when the scan did not
produce a strictly smaller string (`if(s >= f_string) return false`). -/
def Part.previous (p : Part) : Bool × Part :=
  if p.isInteger then
    if p.integer = 0 then (false, p)
    else (true, { p with integer := p.integer - 1 })
  else
    let s : List Char := (decLowerRev p.str.data.reverse).reverse
    if 0 ≤ lexCmp s p.str.data then (false, p)
    else (true, { p with str := ⟨s⟩ })

/-! Bounded part-vector operations of `trait.cpp`.  The sequence is a
`std::vector<part>`; insertion is bounds-checked against `MAX_PARTS` and
indexing past the end throws (`thrown`). -/

/-- `trait::push_back`. -/
def pushBack (parts : List Part) (p : Part) : CppResult (List Part) :=
  if MAX_PARTS ≤ parts.length then
    .thrown "trying to append more parts when maximum was already reached."
  else
    .ok (parts ++ [p])

/-- `trait::insert`.  The in-tree call sites always pass `0 ≤ index ≤ size`,
the precondition of `std::vector::insert`. -/
def insertPart (parts : List Part) (index : Nat) (p : Part) :
    CppResult (List Part) :=
  if MAX_PARTS ≤ parts.length then
    .thrown "trying to insert more parts when maximum was already reached."
  else
    .ok (parts.take index ++ p :: parts.drop index)

/-- `trait::erase`.  A negative C++ `int` index casts to a huge `size_t`
and is caught by the same test, so a `Nat` index loses no behavior. -/
def erasePart (parts : List Part) (index : Nat) : CppResult (List Part) :=
  if parts.length ≤ index then
    .thrown "trying to erase a non-existant part."
  else
    .ok (parts.take index ++ parts.drop (index + 1))

/-- `trait::resize`: `std::vector::resize` truncates or pads with
default-constructed parts. -/
def resizeParts (parts : List Part) (sz : Nat) : CppResult (List Part) :=
  if MAX_PARTS < sz then
    .thrown "requested too many parts."
  else
    .ok (parts.take sz ++ List.replicate (sz - parts.length) Part.init)

/-- `trait::at` with a C++ `int` index: `std::vector::at` throws
`std::out_of_range` for any index outside the vector (a negative index
casts to a huge `size_t` and also throws). -/
def atPart (parts : List Part) (index : Int) : CppResult Part :=
  if h : 0 ≤ index ∧ index.toNat < parts.length then
    .ok (parts.get ⟨index.toNat, h.2⟩)
  else
    .thrown "vector::_M_range_check"

/-- The part at a position known to be in range (used where the source
indexes with `at(idx)` under a bound that guarantees validity). -/
def partAtD (parts : List Part) (index : Nat) : Part :=
  parts.getD index Part.init

/-! The generic tokenizer of `trait.cpp` (`parse`, `parse_version`,
`parse_value`), parameterized by the scheme's `is_valid_character` and
`is_separator` callbacks.  Characters are Unicode scalars (`char32_t` in
the sources, `Char` here); the `libutf8::NOT_A_CHARACTER` checks of the
sources are unreachable in this model because `Char` only holds valid
scalars. -/

/-- Uppercase hexadecimal digit. -/
def hexDigitU (n : Nat) : Char :=
  if n < 10 then Char.ofNat ('0'.toNat + n) else Char.ofNat ('A'.toNat + n - 10)

/-- `snapdev::int_to_hex(c, true, 6)`: six uppercase hexadecimal digits. -/
def intToHex6 (n : Nat) : String :=
  ⟨[hexDigitU (n / 1048576 % 16), hexDigitU (n / 65536 % 16),
    hexDigitU (n / 4096 % 16), hexDigitU (n / 256 % 16),
    hexDigitU (n / 16 % 16), hexDigitU (n % 16)]⟩

/-- The `UnexpectedCharacter` message of `trait::parse_value`. -/
def unexpectedCharMsg (c : Char) : String :=
  "found unexpected character: \\U" ++ intToHex6 c.toNat ++ " in input."

/-- The while-loop of `trait::parse_value`, one iteration per recursive
step: a maximal run of digits becomes one integer part (with the run
length recorded as its width), then a maximal run of non-digits becomes
one string part after each of its characters passes `valid`; the first
pushed part receives `sep` as its separator.  The fuel only bounds the
iteration count: every iteration consumes at least one character, so
`parse_value` supplies `value.length + 1`, which is never exhausted. -/
def parseValueLoop (valid : Char → Bool) :
    Nat → List Char → Char → List Part → CppResult (List Part)
  | 0, _, _, _ => .thrown "loop fuel exhausted (unreachable)"
  | _, [], _, parts => .ok parts
  | fuel + 1, c :: cs, sep, parts =>
    if isDigitChar c then
      -- read one number (digits)
      let n : List Char := c :: cs.takeWhile isDigitChar
      let rest1 : List Char := cs.dropWhile isDigitChar
      match Part.init.set_value ⟨n⟩ with
      | .err m => .err m
      | .thrown m => .thrown m
      | .ok p =>
        let p := { p with width := n.length, separator := sep }
        match pushBack parts p with
        | .err m => .err m
        | .thrown m => .thrown m
        | .ok parts2 =>
          -- read "letters" (anything but a number in the base parser)
          let ls : List Char := rest1.takeWhile (fun x => !isDigitChar x)
          let rest2 : List Char := rest1.dropWhile (fun x => !isDigitChar x)
          match ls.find? (fun x => !valid x) with
          | some bad => .err (unexpectedCharMsg bad)
          | none =>
            if ls.isEmpty then
              parseValueLoop valid fuel rest2 NUL parts2
            else
              match pushBack parts2 { Part.init.set_string ⟨ls⟩ with separator := NUL } with
              | .err m => .err m
              | .thrown m => .thrown m
              | .ok parts3 => parseValueLoop valid fuel rest2 NUL parts3
    else
      let ls : List Char := c :: cs.takeWhile (fun x => !isDigitChar x)
      let rest2 : List Char := cs.dropWhile (fun x => !isDigitChar x)
      match ls.find? (fun x => !valid x) with
      | some bad => .err (unexpectedCharMsg bad)
      | none =>
        match pushBack parts { Part.init.set_string ⟨ls⟩ with separator := sep } with
        | .err m => .err m
        | .thrown m => .thrown m
        | .ok parts3 => parseValueLoop valid fuel rest2 NUL parts3

/-- `trait::parse_value`: an empty segment (two separators in a row, a
leading or trailing separator) is the `EmptyValue` error. -/
def parseValue (valid : Char → Bool) (value : List Char) (sep : Char)
    (parts : List Part) : CppResult (List Part) :=
  if value.isEmpty then
    .err "a version value cannot be an empty string."
  else
    parseValueLoop valid (value.length + 1) value sep parts

/-- The loop of `trait::parse_version`: characters accumulate into a
buffer (kept reversed here) until a separator hands the buffer to
`parse_value`; the final buffer is always handed over at the end. -/
def parseVersionLoop (valid isSep : Char → Bool) :
    List Char → List Char → Char → List Part → CppResult (List Part)
  | [], value, sep, parts => parseValue valid value.reverse sep parts
  | c :: cs, value, sep, parts =>
    if isSep c then
      match parseValue valid value.reverse sep parts with
      | .ok parts2 => parseVersionLoop valid isSep cs [] c parts2
      | .err m => .err m
      | .thrown m => .thrown m
    else
      parseVersionLoop valid isSep cs (c :: value) sep parts

/-- `trait::parse_version`. -/
def parseVersion (valid isSep : Char → Bool) (v : List Char) (sep : Char)
    (parts : List Part) : CppResult (List Part) :=
  parseVersionLoop valid isSep v [] sep parts

/-- Default `trait::is_valid_character`: every valid Unicode scalar except
the period (`Char` values are valid scalars by construction). -/
def traitValidChar (c : Char) : Bool := c ≠ '.'

/-- Default `trait::is_separator`. -/
def traitIsSep (c : Char) : Bool := c = '.'

/-- `trait::parse`: clears the parts, rejects the empty input with the
`EmptyInput` error, and otherwise runs the default tokenizer. -/
def traitParse (v : String) : CppResult (List Part) :=
  if v.isEmpty then
    .err "an empty input string cannot represent a valid version."
  else
    parseVersion traitValidChar traitIsSep v.data NUL []

/-- `trait::get_format_part`: the format's part when the format exists and
has a part at `pos` (a negative `int` position casts to a huge `size_t`,
failing the size test); otherwise a maximal integer part (separator `.`
except at position `0`) or the maximal one-letter string `z`. -/
def getFormatPart (format : Option (List Part)) (pos : Int) (integer : Bool) :
    Part :=
  match format with
  | some fparts =>
    if 0 ≤ pos ∧ pos.toNat < fparts.length then partAtD fparts pos.toNat
    else if integer then
      if pos ≠ 0 then { Part.init.set_to_max_integer with separator := '.' }
      else Part.init.set_to_max_integer
    else
      Part.init.set_to_max_string 1
  | none =>
    if integer then
      if pos ≠ 0 then { Part.init.set_to_max_integer with separator := '.' }
      else Part.init.set_to_max_integer
    else
      Part.init.set_to_max_string 1

/-! The Debian scheme of `debian.cpp`. -/

/-- `compare_characters` of `debian.cpp` (anonymous namespace), translated
branch for branch.  Note that the test on `b` inside the letters branch
combines the lowercase range and the uppercase range with `&&` in the
source, a condition no character satisfies. -/
def debianCompareChars (a b : Char) : Int :=
  if a = b then 0
  else if a = NUL then (if b = '~' then 1 else -1)
  else if b = NUL then (if a = '~' then -1 else 1)
  else if ('a' ≤ a ∧ a ≤ 'z') ∨ ('A' ≤ a ∧ a ≤ 'Z') then
    if ('a' ≤ b ∧ b ≤ 'z') ∧ ('A' ≤ b ∧ b ≤ 'Z') then
      if a < b then -1 else if b < a then 1 else 0
    else
      -- letters are earlier than non-letters except the tilde
      if b = '~' then 1 else -1
  else if ('a' ≤ b ∧ b ≤ 'z') ∨ ('A' ≤ b ∧ b ≤ 'Z') then
    if a = '~' then -1 else 1
  else if a = '~' then -1
  else if b = '~' then 1
  else if a < b then -1
  else if b < a then 1
  else 0

/-- First non-zero element, or zero. -/
def firstNonzero : List Int → Int
  | [] => 0
  | r :: rest => if r = 0 then firstNonzero rest else r

/-- `compare_strings` of `debian.cpp`: position-by-position comparison up
to the longer length, a position past a string's end reading as NUL. -/
def debianCompareStrings (lhs rhs : String) : Int :=
  let m := Nat.max lhs.data.length rhs.data.length
  firstNonzero ((List.range m).map (fun i =>
    debianCompareChars (lhs.data.getD i NUL) (rhs.data.getD i NUL)))

/-- `debian::is_valid_character` with
`f_accepted_chars == ACCEPTED_CHARS_UPSTREAM`.  (The EPOCH mode is never
consulted: the epoch text goes through `part::set_value` directly.) -/
def debianValidUpstream (c : Char) : Bool :=
  if '0' ≤ c ∧ c ≤ '9' then true
  else if ('A' ≤ c ∧ c ≤ 'Z') ∨ ('a' ≤ c ∧ c ≤ 'z')
       ∨ c = '+' ∨ c = '.' ∨ c = '~' then true
  else c = '-' ∨ c = ':'

/-- `debian::is_valid_character` with
`f_accepted_chars == ACCEPTED_CHARS_DEBIAN_REVISION`. -/
def debianValidRevision (c : Char) : Bool :=
  if '0' ≤ c ∧ c ≤ '9' then true
  else if ('A' ≤ c ∧ c ≤ 'Z') ∨ ('a' ≤ c ∧ c ≤ 'z')
       ∨ c = '+' ∨ c = '.' ∨ c = '~' then true
  else false

/-- Index of the first occurrence of `c` (`std::string::find`). -/
def findChar : List Char → Char → Option Nat
  | [], _ => none
  | a :: as, c => if a = c then some 0 else (findChar as c).map (· + 1)

/-- Index of the last occurrence of `c` (`std::string::rfind`). -/
def rfindChar (s : List Char) (c : Char) : Option Nat :=
  (findChar s.reverse c).map (fun i => s.length - 1 - i)

/-- Mark every part from index `from0` on with type `-` (the loop at the
end of `debian::parse` and `rpm::parse`). -/
def markRevision (parts : List Part) (from0 : Nat) : List Part :=
  (parts.enum).map (fun pi => if from0 ≤ pi.1 then { pi.2 with ptype := '-' } else pi.2)

/-- `debian::parse`, for a freshly constructed trait (empty part list, as
all façade uses in the claims create it).  `std::string::npos + 1 == 0`
makes a missing colon give upstream start `0` and separator NUL. -/
def debianParse (v : String) : CppResult (List Part) :=
  let colon : Option Nat := findChar v.data ':'
  let dash : Option Nat := rfindChar v.data '-'
  if (colon.isSome ∧ dash.isSome ∧ dash.getD 0 ≤ colon.getD 0)
      ∨ colon = some 0 ∨ dash = some 0 then
    .err ("invalid ':' and/or '-' positions in \"" ++ v ++ "\".")
  else
    let epochRes : CppResult (List Part) :=
      match colon with
      | none => .ok []
      | some ci =>
        match Part.init.set_value ⟨v.data.take ci⟩ with
        | .err m => .err m
        | .thrown m => .thrown m
        | .ok p =>
          if !p.isInteger then .err "epoch must be a valid integer."
          else pushBack [] { p with ptype := ':' }
    match epochRes with
    | .err m => .err m
    | .thrown m => .thrown m
    | .ok parts0 =>
      let start : Nat := match colon with | none => 0 | some ci => ci + 1
      let dashIdx : Nat := dash.getD v.data.length
      let upstream : List Char := (v.data.drop start).take (dashIdx - start)
      match parseVersion debianValidUpstream traitIsSep upstream
          (if start = 0 then NUL else ':') parts0 with
      | .err m => .err m
      | .thrown m => .thrown m
      | .ok parts1 =>
        match atPart parts1 (if start = 0 then 0 else 1) with
        | .err m => .err m
        | .thrown m => .thrown m
        | .ok firstUp =>
          if !firstUp.isInteger then
            .err ("a debian version must always start with a number \"" ++ v ++ "\".")
          else if dashIdx < v.data.length then
            match parseValue debianValidRevision (v.data.drop (dashIdx + 1)) '-' parts1 with
            | .err m => .err m
            | .thrown m => .thrown m
            | .ok parts2 => .ok (markRevision parts2 parts1.length)
          else
            .ok parts1

/-- The start/end scan of `debian::prepare_next_previous` (also
`rpm::get_upstream_positions`): the part after the epoch starts the
upstream range and the first revision part ends it. -/
def startEndScan : List Part → Nat → Nat → Nat → Nat × Nat
  | [], _, start, e => (start, e)
  | p :: rest, idx, start, e =>
    if p.ptype = ':' ∧ start = 0 then startEndScan rest (idx + 1) (idx + 1) e
    else if p.ptype = '-' ∧ idx < e then (start, idx)
    else startEndScan rest (idx + 1) start e

/-- `debian::prepare_next_previous`: the empty sequence is an error; an
empty upstream range is the (unreachable) logic error. -/
def debianPrepare (parts : List Part) : CppResult (Nat × Nat) :=
  if parts.length = 0 then
    .err "no parts in this Debian version; cannot computer next/previous."
  else
    let se := startEndScan parts 0 0 parts.length
    if se.2 ≤ se.1 then
      .thrown "no standard parts in this Debian version; cannot computer next/previous."
    else
      .ok se

/-- Repeated `insert(end, zero); ++end;` padding of `debian::next` and
`debian::previous` (`count` iterations of the do-while). -/
def insertPad (zero : Part) : Nat → Nat → List Part → CppResult (Nat × List Part)
  | 0, e, parts => .ok (e, parts)
  | count + 1, e, parts =>
    match insertPart parts e zero with
    | .err m => .err m
    | .thrown m => .thrown m
    | .ok parts2 => insertPad zero count (e + 1) parts2

/-- The carry loop `for(;; --pos)` of `debian::next`.  `fuel` only bounds
the iteration count; the loop decrements `pos` on every non-breaking
iteration and `at()` throws once `pos` reaches `-1`, so any fuel above
`pos + 2` is never exhausted.  The `static_cast<std::size_t>(pos - 1)
<= start` test is `pos ≥ 1 ∧ pos - 1 ≤ start` (a negative difference
casts to a huge `size_t`, larger than any in-range `start`). -/
def debianNextLoop (format : Option (List Part)) :
    Nat → List Part → Int → Nat → Nat → CppResult (Int × Nat × List Part)
  | 0, _, _, _, _ => .thrown "loop fuel exhausted (unreachable)"
  | fuel + 1, parts, pos, start, e =>
    match atPart parts pos with
    | .err m => .err m
    | .thrown m => .thrown m
    | .ok p =>
      if p.cmp (getFormatPart format pos p.isInteger) = 0 then
        if 1 ≤ pos ∧ pos - 1 ≤ (start : Int) then
          .err "maximum limit reached; cannot increment version any further."
        else
          match erasePart parts pos.toNat with
          | .err m => .err m
          | .thrown m => .thrown m
          | .ok parts2 => debianNextLoop format fuel parts2 (pos - 1) start (e - 1)
      else
        .ok (pos, e, parts.set pos.toNat (p.next).2)

/-- The trailing `while(pos < end) { --end; erase(end); }` of
`debian::next` (`count` iterations, erasing at the shrinking end). -/
def eraseTail : Nat → Nat → List Part → CppResult (List Part)
  | 0, _, parts => .ok parts
  | count + 1, e, parts =>
    match erasePart parts (e - 1) with
    | .err m => .err m
    | .thrown m => .thrown m
    | .ok parts2 => eraseTail count (e - 1) parts2

/-- `debian::next(pos, format)`. -/
def debianNext (pos0 : Int) (format : Option (List Part)) (parts : List Part) :
    CppResult (List Part) :=
  if pos0 < 0 then
    .thrown "position calling next() cannot be a negative number."
  else if (MAX_PARTS : Int) ≤ pos0 then
    .thrown "position calling next() cannot be more than 25."
  else
    match debianPrepare parts with
    | .err m => .err m
    | .thrown m => .thrown m
    | .ok (start, e0) =>
      let pos : Int := pos0 + start
      let padRes : CppResult (Nat × List Part) :=
        if (e0 : Int) ≤ pos then
          insertPad { Part.init with separator := '.' } (pos.toNat + 1 - e0) e0 parts
        else .ok (e0, parts)
      match padRes with
      | .err m => .err m
      | .thrown m => .thrown m
      | .ok (e1, parts1) =>
        match debianNextLoop format (pos.toNat + 2) parts1 pos start e1 with
        | .err m => .err m
        | .thrown m => .thrown m
        | .ok (pos1, e2, parts2) =>
          -- keep part one if it is an integer and the last incremented
          -- part was part 0
          let keep : Bool := pos1 = 0 ∧ 2 ≤ parts2.length ∧ (partAtD parts2 1).isInteger
          let parts3 := if keep then parts2.set 1 ((partAtD parts2 1).set_integer 0) else parts2
          let pos2 : Int := (if keep then pos1 + 1 else pos1) + 1
          if pos2 < (e2 : Int) then
            match eraseTail ((e2 : Int) - pos2).toNat e2 parts3 with
            | .err m => .err m
            | .thrown m => .thrown m
            | .ok parts4 => .ok parts4
          else
            .ok parts3

/-- The inner `while(at(pos).is_zero() && pos + 1 == end)` trimming loop
of `debian::previous` (runs after the successful decrement; `at` is
evaluated first, so a `pos` of `-1` throws). -/
def prevTrimLoop : Nat → List Part → Int → Nat → CppResult (List Part)
  | 0, _, _, _ => .thrown "loop fuel exhausted (unreachable)"
  | fuel + 1, parts, pos, e =>
    match atPart parts pos with
    | .err m => .err m
    | .thrown m => .thrown m
    | .ok p =>
      if p.is_zero ∧ pos + 1 = (e : Int) then
        match erasePart parts pos.toNat with
        | .err m => .err m
        | .thrown m => .thrown m
        | .ok parts2 => prevTrimLoop fuel parts2 (pos - 1) (e - 1)
      else
        .ok parts

/-- The borrow loop `for(;;)` of `debian::previous`: a zero part is reset
to the format's bound (separator untouched) and the borrow moves left; a
non-zero part is decremented and the trailing zeros that sit exactly at
the upstream end are erased. -/
def debianPrevLoop (format : Option (List Part)) :
    Nat → List Part → Int → Nat → Nat → CppResult (List Part)
  | 0, _, _, _, _ => .thrown "loop fuel exhausted (unreachable)"
  | fuel + 1, parts, pos, start, e =>
    match atPart parts pos with
    | .err m => .err m
    | .thrown m => .thrown m
    | .ok p =>
      if p.is_zero then
        if pos ≤ (start : Int) then
          .err "minimum limit reached; cannot decrement version any further."
        else
          let f := getFormatPart format pos p.isInteger
          let p2 := if f.isInteger then p.set_integer f.integer else p.set_string f.str
          debianPrevLoop format fuel (parts.set pos.toNat p2) (pos - 1) start e
      else
        prevTrimLoop (pos.toNat + 2) (parts.set pos.toNat (p.previous).2) pos e

/-- `debian::previous(pos, format)`. -/
def debianPrevious (pos0 : Int) (format : Option (List Part))
    (parts : List Part) : CppResult (List Part) :=
  if pos0 < 0 then
    .thrown "position calling previous() cannot be a negative number."
  else if (MAX_PARTS : Int) ≤ pos0 then
    .thrown "position calling previous() cannot be more than 25."
  else
    match debianPrepare parts with
    | .err m => .err m
    | .thrown m => .thrown m
    | .ok (start, e0) =>
      let pos : Int := pos0 + start
      let padRes : CppResult (Nat × List Part) :=
        if (e0 : Int) ≤ pos then
          insertPad { Part.init.set_integer 0 with separator := '.' }
            (pos.toNat + 1 - e0) e0 parts
        else .ok (e0, parts)
      match padRes with
      | .err m => .err m
      | .thrown m => .thrown m
      | .ok (e1, parts1) =>
        debianPrevLoop format (pos.toNat + 2) parts1 pos start e1

/-- The trailing-zero trim of `debian::to_string`. -/
def trimZeroTail (parts : List Part) (limit : Nat) : Nat → Nat
  | 0 => 0
  | m + 1 =>
    if limit < m + 1 ∧ (partAtD parts m).is_zero then trimZeroTail parts limit m
    else m + 1

/-- The emission loop of `debian::to_string`: each part prints its
separator (when not NUL) followed by its text; `at(idx)` throws when
`max` exceeds the part count. -/
def emitParts (parts : List Part) : Nat → Nat → String → CppResult String
  | idx, count, acc =>
    match count with
    | 0 => .ok acc
    | count' + 1 =>
      match atPart parts (idx : Int) with
      | .err m => .err m
      | .thrown m => .thrown m
      | .ok p =>
        let acc2 := if p.separator ≠ NUL then acc.push p.separator else acc
        emitParts parts (idx + 1) count' (acc2 ++ p.to_string)

/-- `debian::to_string`: trailing zero parts are dropped down to a floor
of two parts (three with an epoch), then every remaining part is printed
with its recorded separator.  The non-debug build is modelled (the
`_DEBUG`-only separator assertion is absent). -/
def debianToString (parts : List Part) : CppResult String :=
  let limit : Nat := if 0 < parts.length ∧ (partAtD parts 0).ptype = ':' then 2 else 1
  let max1 : Nat := trimZeroTail parts limit parts.length
  if max1 = 0 then .err "no parts to output."
  else emitParts parts 0 (Nat.max (limit + 1) max1) ""

/-- One value read of the `debian::compare` walk on the left side:
whether the part at `lpos` is consumed (type matches the section and
mode matches `handle_strings`), and the resulting string/integer values
(defaults otherwise). -/
def debianConsume (parts : List Part) (pos : Nat) (ptype : Char)
    (hs : Bool) : Bool × String × Int :=
  if h : pos < parts.length then
    let p := parts.get ⟨pos, h⟩
    if p.ptype = ptype ∧ (hs ≠ p.isInteger) then
      (true, (if hs then p.str else ""), (if hs then 0 else toInt32 p.integer))
    else (false, "", 0)
  else (false, "", 0)

/-- The nested loops of `debian::compare` on the part lists, with fuel.
Each fuel step is one iteration of the inner
`for(bool handle_strings(true);; handle_strings = !handle_strings)` loop
or one inner-loop exit; `none` means the fuel ran out before the function
returned.  The inner loop exits only when `lpos` and `rpos` both reach
the LEFT size (`rpos >= size()`, as in the source); otherwise an
iteration consumes at most one part on each side (`debianConsume`),
compares the string values when `handle_strings` and the integer values
otherwise, and returns on the first difference.  After the exit the same
walk repeats for the revision parts (`type = '-'`), after which the
function returns `0`. -/
def debianCompareLoop (l r : List Part) :
    Nat → Char → Bool → Nat → Nat → Option Int
  | 0, _, _, _, _ => none
  | fuel + 1, ptype, hs, lpos, rpos =>
    if l.length ≤ lpos ∧ l.length ≤ rpos then
      if ptype = '-' then some 0
      else debianCompareLoop l r fuel '-' true lpos rpos
    else
      let lc := debianConsume l lpos ptype hs
      let rc := debianConsume r rpos ptype hs
      let lpos2 := if lc.1 then lpos + 1 else lpos
      let rpos2 := if rc.1 then rpos + 1 else rpos
      if hs then
        let cmp := debianCompareStrings lc.2.1 rc.2.1
        if cmp ≠ 0 then some cmp
        else debianCompareLoop l r fuel ptype (!hs) lpos2 rpos2
      else
        if lc.2.2 ≠ rc.2.2 then some (if lc.2.2 < rc.2.2 then -1 else 1)
        else debianCompareLoop l r fuel ptype (!hs) lpos2 rpos2

/-- `debian::compare` for two Debian versions with non-empty part lists
(empty lists throw `empty_version` in the source before this walk; a
non-Debian right-hand side falls back to the generic `trait::compare`).
The epochs — the parts of type `:` at index 0, read through C++ `int`
variables — are compared first; the interleaved walk runs on `fuel`. -/
def debianCompare (fuel : Nat) (l r : List Part) : Option Int :=
  let lepoch : Int := if (partAtD l 0).ptype = ':' then toInt32 (partAtD l 0).integer else 0
  let repoch : Int := if (partAtD r 0).ptype = ':' then toInt32 (partAtD r 0).integer else 0
  let lpos : Nat := if (partAtD l 0).ptype = ':' then 1 else 0
  let rpos : Nat := if (partAtD r 0).ptype = ':' then 1 else 0
  if lepoch ≠ repoch then some (if lepoch < repoch then -1 else 1)
  else debianCompareLoop l r fuel NUL true lpos rpos

/-! The RPM scheme of `rpm.cpp`, with the character order table generated
by `rpm_order.cpp`. -/

/-- The table `g_rpm_compare_characters` as `rpm_order.cpp` generates it:
each supported character maps to its position in the order
`~`, NUL, `+`, `A`..`Z`, `a`..`z`, `^` plus one; every other byte maps
to `0`. -/
def rpmCharOrder (c : Char) : Nat :=
  if c = '~' then 1
  else if c = NUL then 2
  else if c = '+' then 3
  else if 'A' ≤ c ∧ c ≤ 'Z' then 4 + (c.toNat - 'A'.toNat)
  else if 'a' ≤ c ∧ c ≤ 'z' then 30 + (c.toNat - 'a'.toNat)
  else if c = '^' then 56
  else 0

/-- `compare_characters` of `rpm.cpp`: the sign of the difference of the
two table entries. -/
def rpmCompareChars (a b : Char) : Int :=
  let r : Int := (rpmCharOrder a : Int) - (rpmCharOrder b : Int)
  if r = 0 then 0 else if r < 0 then -1 else 1

/-- The inner do-while of `compare_strings` in `rpm.cpp`: read the
character at the index (keeping the previous value past the end),
advance, and keep advancing over underscores while characters remain.
The fuel only bounds the iterations; the index strictly increases, so
`s.length + 1` steps always suffice. -/
def rpmReadChar (s : List Char) : Nat → Nat → Char → Char × Nat
  | 0, idx, a => (a, idx)
  | fuel + 1, idx, a =>
    let a2 := if idx < s.length then s.getD idx NUL else a
    let idx2 := idx + 1
    if a2 = '_' ∧ idx2 < s.length then rpmReadChar s fuel idx2 a2
    else (a2, idx2)

/-- The outer while-loop of `compare_strings` in `rpm.cpp`: underscores
read as NUL once the scan stops on them, and the first character
difference (per the order table) decides.  Both indices advance by at
least one per iteration, so fuel `max + 2` is never exhausted. -/
def rpmCompareStringsLoop (l r : List Char) (m : Nat) :
    Nat → Nat → Nat → Int
  | 0, _, _ => 0
  | fuel + 1, lidx, ridx =>
    if lidx < m ∨ ridx < m then
      let ar := rpmReadChar l (l.length + 1) lidx NUL
      let a := if ar.1 = '_' then NUL else ar.1
      let br := rpmReadChar r (r.length + 1) ridx NUL
      let b := if br.1 = '_' then NUL else br.1
      let cmp := rpmCompareChars a b
      if cmp ≠ 0 then cmp
      else rpmCompareStringsLoop l r m fuel ar.2 br.2
    else 0

/-- `compare_strings` of `rpm.cpp`. -/
def rpmCompareStrings (lhs rhs : String) : Int :=
  let m := Nat.max lhs.data.length rhs.data.length
  rpmCompareStringsLoop lhs.data rhs.data m (m + 2) 0 0

/-- `rpm::is_valid_character`. -/
def rpmValidChar (c : Char) : Bool :=
  ('0' ≤ c ∧ c ≤ '9') ∨ ('A' ≤ c ∧ c ≤ 'Z') ∨ ('a' ≤ c ∧ c ≤ 'z')
    ∨ c = '~' ∨ c = '^' ∨ c = '_'

/-- `rpm::is_separator`. -/
def rpmIsSep (c : Char) : Bool := c = '+' ∨ c = '.'

/-- `rpm::parse`, for a freshly constructed trait (empty part list). -/
def rpmParse (v : String) : CppResult (List Part) :=
  let colon : Option Nat := findChar v.data ':'
  let dash : Option Nat := rfindChar v.data '-'
  if (colon.isSome ∧ dash.isSome ∧ dash.getD 0 ≤ colon.getD 0)
      ∨ colon = some 0 ∨ dash = some 0 then
    .err ("position of ':' and/or '-' is invalid in \"" ++ v ++ "\".")
  else
    let epochRes : CppResult (List Part) :=
      match colon with
      | none => .ok []
      | some ci =>
        match Part.init.set_value ⟨v.data.take ci⟩ with
        | .err m => .err m
        | .thrown m => .thrown m
        | .ok p =>
          if !p.isInteger then .err "epoch must be a valid integer."
          else pushBack [] { p with ptype := ':' }
    match epochRes with
    | .err m => .err m
    | .thrown m => .thrown m
    | .ok parts0 =>
      let start : Nat := match colon with | none => 0 | some ci => ci + 1
      let dashIdx : Nat := dash.getD v.data.length
      let upstream : List Char := (v.data.drop start).take (dashIdx - start)
      match parseVersion rpmValidChar rpmIsSep upstream
          (if start = 0 then NUL else ':') parts0 with
      | .err m => .err m
      | .thrown m => .thrown m
      | .ok parts1 =>
        if dashIdx < v.data.length then
          match parseVersion rpmValidChar rpmIsSep (v.data.drop (dashIdx + 1)) '-' parts1 with
          | .err m => .err m
          | .thrown m => .thrown m
          | .ok parts2 => .ok (markRevision parts2 parts1.length)
        else
          .ok parts1

/-- What one side of the `rpm::compare` walk reads at the current step. -/
structure RpmRead where
  consumed : Bool
  isInt : Bool
  intval : Int
  strval : String

/-- One side of an `rpm::compare` iteration: a part is consumed when it
exists and its type matches the current section; `linteger`/`lint`/`lstr`
keep their defaults (`false`, `0`, `""`) otherwise. -/
def rpmConsume (parts : List Part) (pos : Nat) (ptype : Char) : RpmRead :=
  if h : pos < parts.length then
    let p := parts.get ⟨pos, h⟩
    if p.ptype = ptype then
      ⟨true, p.isInteger, (if p.isInteger then toInt32 p.integer else 0),
       (if p.isInteger then "" else p.str)⟩
    else ⟨false, false, 0, ""⟩
  else ⟨false, false, 0, ""⟩

/-- The explicit sign rules of `rpm::compare` for a step whose two sides
read parts of different kinds (`linteger != rinteger`), translated from
the `else` branch of the comparison: the integer side returns its sign
unless its value is `0` and the other side's string is empty, in which
case the walk continues (`none`). -/
def rpmMismatchSign (linteger : Bool) (lint : Int) (lstr : String)
    (rint : Int) (rstr : String) : Option Int :=
  if linteger then
    if lint ≠ 0 ∨ rstr ≠ "" then some 1 else none
  else
    if rint ≠ 0 ∨ lstr ≠ "" then some (-1) else none

/-- The nested loops of `rpm::compare`, with fuel (each fuel step is one
inner iteration or one inner-loop exit; `none` is exhausted fuel, which
cannot happen for fuel above `l.length + r.length + 3` because every
non-exiting iteration consumes a part).  The inner loop exits when both
sides are past their parts of the current section type. -/
def rpmCompareLoop (l r : List Part) : Nat → Char → Nat → Nat → Option Int
  | 0, _, _, _ => none
  | fuel + 1, ptype, lpos, rpos =>
    if (l.length ≤ lpos ∨ (partAtD l lpos).ptype ≠ ptype)
        ∧ (r.length ≤ rpos ∨ (partAtD r rpos).ptype ≠ ptype) then
      if ptype = '-' then some 0 else rpmCompareLoop l r fuel '-' lpos rpos
    else
      let lc := rpmConsume l lpos ptype
      let rc := rpmConsume r rpos ptype
      let lpos2 := if lc.consumed then lpos + 1 else lpos
      let rpos2 := if rc.consumed then rpos + 1 else rpos
      if lc.isInt = rc.isInt then
        if lc.isInt then
          if lc.intval ≠ rc.intval then
            some (if lc.intval < rc.intval then -1 else 1)
          else rpmCompareLoop l r fuel ptype lpos2 rpos2
        else
          let cmp := rpmCompareStrings lc.strval rc.strval
          if cmp ≠ 0 then some cmp
          else rpmCompareLoop l r fuel ptype lpos2 rpos2
      else
        match rpmMismatchSign lc.isInt lc.intval lc.strval rc.intval rc.strval with
        | some sign => some sign
        | none => rpmCompareLoop l r fuel ptype lpos2 rpos2

/-- `rpm::compare` for two RPM versions with non-empty part lists (empty
lists throw `empty_version`; a non-RPM right-hand side falls back to the
generic `trait::compare`): epochs first, then the sectioned walk. -/
def rpmCompare (fuel : Nat) (l r : List Part) : Option Int :=
  let lepoch : Int := if (partAtD l 0).ptype = ':' then toInt32 (partAtD l 0).integer else 0
  let repoch : Int := if (partAtD r 0).ptype = ':' then toInt32 (partAtD r 0).integer else 0
  let lpos : Nat := if (partAtD l 0).ptype = ':' then 1 else 0
  let rpos : Nat := if (partAtD r 0).ptype = ':' then 1 else 0
  if lepoch ≠ repoch then some (if lepoch < repoch then -1 else 1)
  else rpmCompareLoop l r fuel NUL lpos rpos

/-! The Roman-numeral codec of `roman.cpp`. -/

/-- The per-character value table of `from_roman_number` (lowercase
letters are uppercased first; an unknown character is `none`, making the
whole conversion return `0`). -/
def romanDigitValue (c : Char) : Option Nat :=
  let u := if 'a' ≤ c ∧ c ≤ 'z' then Char.ofNat (c.toNat - 32) else c
  if u = 'I' then some 1
  else if u = 'V' then some 5
  else if u = 'X' then some 10
  else if u = 'L' then some 50
  else if u = 'C' then some 100
  else if u = 'D' then some 500
  else if u = 'M' then some 1000
  else none

/-- `part_integer_t` addition (wraps modulo `2^32`). -/
def add32 (a b : Nat) : Nat := (a + b) % U32_MOD

/-- `part_integer_t` subtraction (wraps modulo `2^32`; the accumulator is
kept below `2^32`). -/
def sub32 (a b : Nat) : Nat := (a + U32_MOD - b % U32_MOD) % U32_MOD

/-- The right-to-left walk of `from_roman_number` over the values after
the last one: `prev` is `number[idx + 1]`, `result` the accumulator and
`subtract` the subtractive-mode flag. -/
def romanWalk : List Nat → Nat → Nat → Bool → Nat
  | [], _, result, _ => result
  | v :: rest, prev, result, subtract =>
    if v = prev then
      romanWalk rest v (if subtract then sub32 result v else add32 result v) subtract
    else if v < prev then
      romanWalk rest v (sub32 result v) true
    else
      romanWalk rest v (add32 result v) false

/-- `from_roman_number` of `roman.cpp`: `0` for the empty string or any
unknown character; otherwise the walk from the rightmost value. -/
def fromRomanNumber (value : String) : Nat :=
  if value.data.isEmpty then 0
  else
    match (value.data.mapM romanDigitValue) with
    | none => 0
    | some vals =>
      match vals.reverse with
      | [] => 0
      | v0 :: rest => romanWalk rest v0 v0 false

/-- `g_thousands` of `roman.cpp`. -/
def romanThousands : List String := ["", "M", "MM", "MMM"]

/-- `g_hundreds` of `roman.cpp`. -/
def romanHundreds : List String :=
  ["", "C", "CC", "CCC", "CD", "D", "DC", "DCC", "DCCC", "CM"]

/-- `g_tens` of `roman.cpp`. -/
def romanTens : List String :=
  ["", "X", "XX", "XXX", "XL", "L", "LX", "LXX", "LXXX", "XC"]

/-- `g_units` of `roman.cpp`. -/
def romanUnits : List String :=
  ["", "I", "II", "III", "IV", "V", "VI", "VII", "VIII", "IX"]

/-- `to_roman_number` of `roman.cpp`: empty for `0` (the unsigned reading
of `value <= 0`) and for anything above `3999`, otherwise the
concatenated table entries per decimal digit. -/
def toRomanNumber (value : Nat) : String :=
  if value = 0 ∨ 3999 < value then ""
  else
    romanThousands.getD (value / 1000) ""
      ++ romanHundreds.getD (value / 100 % 10) ""
      ++ romanTens.getD (value / 10 % 10) ""
      ++ romanUnits.getD (value % 10) ""

/-! The façade of `versiontheca.cpp`: it owns one trait, delegates, and
clears the trait's parts whenever `parse`, `next` or `previous` report
failure.  The trait's virtual functions are passed in as functions. -/

/-- The observable façade state: the owned trait's part sequence and the
`f_valid` flag (`false` in a default-constructed façade). -/
structure Facade where
  parts : List Part
  valid : Bool
deriving Repr, DecidableEq

/-- `versiontheca::set_version`: `f_valid = f_trait->parse(v)` and, on
failure, `f_trait->clear()`.  A thrown exception propagates (`none`). -/
def facadeSetVersion (parseFn : String → CppResult (List Part))
    (_f : Facade) (v : String) : Option Facade :=
  match parseFn v with
  | .ok ps => some ⟨ps, true⟩
  | .err _ => some ⟨[], false⟩
  | .thrown _ => none

/-- `versiontheca::next`: `f_valid = f_trait->next(pos, f_format)` and, on
failure, `f_trait->clear()`. -/
def facadeNext (nextFn : Int → List Part → CppResult (List Part))
    (f : Facade) (pos : Int) : Option Facade :=
  match nextFn pos f.parts with
  | .ok ps => some ⟨ps, true⟩
  | .err _ => some ⟨[], false⟩
  | .thrown _ => none

/-- `versiontheca::previous`, same shape as `versiontheca::next`. -/
def facadePrevious (prevFn : Int → List Part → CppResult (List Part))
    (f : Facade) (pos : Int) : Option Facade :=
  match prevFn pos f.parts with
  | .ok ps => some ⟨ps, true⟩
  | .err _ => some ⟨[], false⟩
  | .thrown _ => none

/-! Concrete part sequences used by the claim theorems, as the embedded
parsers produce them. -/

/-- The parts of the Debian version `1.3.2`. -/
def debV132 : List Part :=
  [⟨NUL, 1, NUL, true, 1, ""⟩, ⟨'.', 1, NUL, true, 3, ""⟩, ⟨'.', 1, NUL, true, 2, ""⟩]

/-- The parts of `1.3.2` after `next(4)` (canonically `1.3.2.0.1`). -/
def debV13201 : List Part :=
  [⟨NUL, 1, NUL, true, 1, ""⟩, ⟨'.', 1, NUL, true, 3, ""⟩, ⟨'.', 1, NUL, true, 2, ""⟩,
   ⟨'.', 0, NUL, true, 0, ""⟩, ⟨'.', 0, NUL, true, 1, ""⟩]

/-- The parts of `1.3.2` after `previous(4)` (canonically
`1.3.1.4294967295.4294967295`). -/
def debV131mm : List Part :=
  [⟨NUL, 1, NUL, true, 1, ""⟩, ⟨'.', 1, NUL, true, 3, ""⟩, ⟨'.', 1, NUL, true, 1, ""⟩,
   ⟨'.', 0, NUL, true, U32_MAX, ""⟩, ⟨'.', 0, NUL, true, U32_MAX, ""⟩]

/-- The parts of the Debian version `53.2z`. -/
def deb53z : List Part :=
  [⟨NUL, 2, NUL, true, 53, ""⟩, ⟨'.', 1, NUL, true, 2, ""⟩, ⟨NUL, 0, NUL, false, 0, "z"⟩]

/-- The parts of the Debian version `53.2Z`. -/
def deb53Z : List Part :=
  [⟨NUL, 2, NUL, true, 53, ""⟩, ⟨'.', 1, NUL, true, 2, ""⟩, ⟨NUL, 0, NUL, false, 0, "Z"⟩]

/-- The parts of the Debian version `1.1-rc1`. -/
def debRc1 : List Part :=
  [⟨NUL, 1, NUL, true, 1, ""⟩, ⟨'.', 1, NUL, true, 1, ""⟩,
   ⟨'-', 0, '-', false, 0, "rc"⟩, ⟨NUL, 1, '-', true, 1, ""⟩]

/-- The parts of the Debian version `1.1-rc2`. -/
def debRc2 : List Part :=
  [⟨NUL, 1, NUL, true, 1, ""⟩, ⟨'.', 1, NUL, true, 1, ""⟩,
   ⟨'-', 0, '-', false, 0, "rc"⟩, ⟨NUL, 1, '-', true, 2, ""⟩]

/-- The parts of the Debian version `0:1.0` (zero epoch). -/
def debE0 : List Part :=
  [⟨NUL, 0, ':', true, 0, ""⟩, ⟨':', 1, NUL, true, 1, ""⟩, ⟨'.', 1, NUL, true, 0, ""⟩]

/-- The parts of the Debian version `0:2.71.3z-rc32.5` (zero epoch, the
input of the repository's own canonicalization test). -/
def debE1 : List Part :=
  [⟨NUL, 0, ':', true, 0, ""⟩, ⟨':', 1, NUL, true, 2, ""⟩, ⟨'.', 2, NUL, true, 71, ""⟩,
   ⟨'.', 1, NUL, true, 3, ""⟩, ⟨NUL, 0, NUL, false, 0, "z"⟩,
   ⟨'-', 0, '-', false, 0, "rc"⟩, ⟨NUL, 2, '-', true, 32, ""⟩,
   ⟨NUL, 0, '-', false, 0, "."⟩, ⟨NUL, 1, '-', true, 5, ""⟩]

/-- The parts of the Debian version `1:4294967295`. -/
def debEpochMax : List Part :=
  [⟨NUL, 0, ':', true, 1, ""⟩, ⟨':', 10, NUL, true, U32_MAX, ""⟩]

/-- The parts of the Debian version `0.0`. -/
def debZeroZero : List Part :=
  [⟨NUL, 1, NUL, true, 0, ""⟩, ⟨'.', 1, NUL, true, 0, ""⟩]

/-- The parts of the RPM version `1.0`. -/
def rpmOneZero : List Part :=
  [⟨NUL, 1, NUL, true, 1, ""⟩, ⟨'.', 1, NUL, true, 0, ""⟩]

/-- The parts of the RPM version `1.a`. -/
def rpmOneA : List Part :=
  [⟨NUL, 1, NUL, true, 1, ""⟩, ⟨'.', 0, NUL, false, 0, "a"⟩]

/-! Helper lemmas for the `part::set_value` accumulator. -/

/-- The exact (unbounded) value of a digit string folded onto `t`. -/
def digitsVal (t : Nat) (cs : List Char) : Nat :=
  cs.foldl (fun n c => n * 10 + (c.toNat - '0'.toNat)) t

/-- The exact numeric value of a digit string. -/
def natValue (s : String) : Nat := digitsVal 0 s.data

/-- Folding digits onto `t` never decreases it. -/
theorem digitsVal_le (cs : List Char) : ∀ t : Nat, t ≤ digitsVal t cs := by
  induction cs with
  | nil => intro t; exact Nat.le_refl t
  | cons c cs ih =>
    intro t
    have h1 : t ≤ t * 10 + (c.toNat - '0'.toNat) := by omega
    exact h1.trans (ih (t * 10 + (c.toNat - '0'.toNat)))

/-- Reducing the accumulator modulo `2^32` before a multiply-add step
gives the same wrapped result as reducing afterwards. -/
theorem modMulAddStep (t d : Nat) :
    (t % U32_MOD * 10 + d) % U32_MOD = (t * 10 + d) % U32_MOD := by
  calc (t % U32_MOD * 10 + d) % U32_MOD
      = (t % U32_MOD * 10 % U32_MOD + d % U32_MOD) % U32_MOD := by
        rw [Nat.add_mod]
    _ = (t * 10 % U32_MOD + d % U32_MOD) % U32_MOD := by
        rw [Nat.mod_mul_mod]
    _ = (t * 10 + d) % U32_MOD := by rw [← Nat.add_mod]

/-- Behaviour of the `part::set_value` digit loop on all-digit input:
it either succeeds with the exact value reduced modulo `2^32`, or it
fails with the integer-too-large error, and failure can only happen when
the exact value overflows `2^32`. -/
theorem setValueLoopSpec (v : String) (p : Part) :
    ∀ (cs : List Char) (t : Nat), (∀ c ∈ cs, isDigitChar c = true) →
    p.set_value_loop v cs (t % U32_MOD)
        = .ok (p.set_integer (digitsVal t cs % U32_MOD))
    ∨ (U32_MOD ≤ digitsVal t cs
       ∧ p.set_value_loop v cs (t % U32_MOD)
           = .err "integer too large for a valid version.") := by
  intro cs
  induction cs with
  | nil =>
    intro t _
    left
    simp [Part.set_value_loop, digitsVal]
  | cons c cs ih =>
    intro t h
    have hc : isDigitChar c = true := h c (List.mem_cons_self c cs)
    have hrest : ∀ x ∈ cs, isDigitChar x = true :=
      fun x hx => h x (List.mem_cons_of_mem c hx)
    have hval : digitsVal t (c :: cs) = digitsVal (t * 10 + (c.toNat - '0'.toNat)) cs := by
      simp [digitsVal]
    by_cases hlt : (t % U32_MOD * 10 + (c.toNat - '0'.toNat)) % U32_MOD < t % U32_MOD
    · right
      constructor
      · have h1 : U32_MOD ≤ t * 10 + (c.toNat - '0'.toNat) := by
          by_contra hno
          push_neg at hno
          have ht : t < U32_MOD := by omega
          rw [modMulAddStep, Nat.mod_eq_of_lt hno, Nat.mod_eq_of_lt ht] at hlt
          omega
        rw [hval]
        exact h1.trans (digitsVal_le cs _)
      · have hlt48 : (t % U32_MOD * 10 + (c.toNat - 48)) % U32_MOD < t % U32_MOD := hlt
        simp [Part.set_value_loop, hc, hlt48]
    · have hrec := ih (t * 10 + (c.toNat - '0'.toNat)) hrest
      rw [modMulAddStep] at hlt
      rw [hval]
      rcases hrec with hok | ⟨hge, herr⟩
      · left
        simp only [Part.set_value_loop, hc, if_true, modMulAddStep]
        rw [if_neg hlt]
        exact hok
      · right
        refine ⟨hge, ?_⟩
        simp only [Part.set_value_loop, hc, if_true, modMulAddStep]
        rw [if_neg hlt]
        exact herr

/-! Helper lemmas for the non-terminating `debian::compare` walk on
`1.1-rc1` versus `1.1-rc2`: once both indices sit on the revision parts
while the walk is still in the upstream section (`type = NUL`), every
iteration consumes nothing, compares defaults, and only flips
`handle_strings`. -/

/-- The stuck configuration of the `debian::compare` inner loop steps to
itself (with `handle_strings` flipped) for every fuel. -/
theorem debRcStuck : ∀ n : Nat,
    debianCompareLoop debRc1 debRc2 n NUL true 2 2 = none
    ∧ debianCompareLoop debRc1 debRc2 n NUL false 2 2 = none := by
  intro n
  induction n with
  | zero => exact ⟨rfl, rfl⟩
  | succ k ih =>
    constructor
    · have hstep : debianCompareLoop debRc1 debRc2 (k + 1) NUL true 2 2
          = debianCompareLoop debRc1 debRc2 k NUL false 2 2 := rfl
      rw [hstep]
      exact ih.2
    · have hstep : debianCompareLoop debRc1 debRc2 (k + 1) NUL false 2 2
          = debianCompareLoop debRc1 debRc2 k NUL true 2 2 := rfl
      rw [hstep]
      exact ih.1

/-- From its initial configuration the `debian::compare` walk on
`1.1-rc1` versus `1.1-rc2` reaches the stuck configuration in four
iterations and therefore never returns, whatever the fuel. -/
theorem debRcLoopNone : ∀ n : Nat,
    debianCompareLoop debRc1 debRc2 n NUL true 0 0 = none := by
  intro n
  match n with
  | 0 => rfl
  | 1 => rfl
  | 2 => rfl
  | 3 => rfl
  | (k + 4) =>
    have hsteps : debianCompareLoop debRc1 debRc2 (k + 4) NUL true 0 0
        = debianCompareLoop debRc1 debRc2 k NUL true 2 2 := rfl
    rw [hsteps]
    exact (debRcStuck k).1

/-! The claim theorems. -/

/-- Claim C1: `debian::compare` is claimed to be a consistent total order
with `compare(a,b) == -compare(b,a)`, in particular on versions whose
compared parts are letter strings.  The code refutes this: in
`compare_characters` the letters test on `b` combines the lowercase and
uppercase ranges with `&&` (never true), so any two distinct letters
compare `-1` in both directions; consequently `53.2z` and `53.2Z`
(the repository's own case-sensitivity test pair, which the tests require
to satisfy `53.2z > 53.2Z`) compare `-1` in both directions. -/
theorem c1_debian_compare_letters_asymmetric :
    debianCompareChars 'a' 'b' = -1 ∧ debianCompareChars 'b' 'a' = -1
    ∧ debianParse "53.2z" = .ok deb53z ∧ debianParse "53.2Z" = .ok deb53Z
    ∧ debianCompare 100 deb53z deb53Z = some (-1)
    ∧ debianCompare 100 deb53Z deb53z = some (-1) := by
  refine ⟨by decide, by decide, by decide, by decide, by decide, by decide⟩

/-- Claim C2 (counterexample): `"30000000000"` consists only of ASCII
digits, its value exceeds `2^32 - 1`, and yet `part::set_value` succeeds,
storing the value wrapped modulo `2^32` (`4230196224`): the
decrease-after-multiply check does not fire because the wrapped
accumulator `4230196224` is not below its predecessor `3000000000`. -/
theorem c2_set_value_overflow_undetected :
    (∀ c ∈ ("30000000000" : String).data, isDigitChar c = true)
    ∧ U32_MAX < natValue "30000000000"
    ∧ Part.init.set_value "30000000000"
        = .ok (Part.init.set_integer 4230196224) := by
  refine ⟨by decide, by decide, by decide⟩

/-- Claim C2 (amended): on a string of ASCII digits, `part::set_value`
either succeeds storing the exact value reduced modulo `2^32`, or fails
with the integer-too-large error, and it can only fail when the value
exceeds `2^32 - 1`; every value at most `2^32 - 1` is stored exactly.
(Overflow is detected only when the wrapped accumulator decreases at some
step, so some overflowing inputs succeed with a wrapped value.) -/
theorem c2_set_value_wrap_spec : ∀ (s : String),
    (∀ c ∈ s.data, isDigitChar c = true) →
    (Part.init.set_value s = .ok (Part.init.set_integer (natValue s % U32_MOD))
     ∨ (U32_MOD ≤ natValue s
        ∧ Part.init.set_value s = .err "integer too large for a valid version."))
    ∧ (natValue s < U32_MOD →
        Part.init.set_value s = .ok (Part.init.set_integer (natValue s))) := by
  intro s h
  have h0 : (0 : Nat) = 0 % U32_MOD := rfl
  have hspec := setValueLoopSpec s Part.init s.data 0 h
  rw [← h0] at hspec
  have hval : digitsVal 0 s.data = natValue s := rfl
  rw [hval] at hspec
  refine ⟨hspec, fun hlt => ?_⟩
  rcases hspec with hok | ⟨hge, _⟩
  · rw [Nat.mod_eq_of_lt hlt] at hok
    exact hok
  · omega

/-- Claim C2 (witness): the amended specification evaluated at the
overflowing input `"30000000000"`. -/
theorem c2_set_value_wrap_spec_witness :
    (∀ c ∈ ("30000000000" : String).data, isDigitChar c = true)
    ∧ ((Part.init.set_value "30000000000"
          = .ok (Part.init.set_integer (natValue "30000000000" % U32_MOD))
        ∨ (U32_MOD ≤ natValue "30000000000"
           ∧ Part.init.set_value "30000000000"
               = .err "integer too large for a valid version."))
       ∧ (natValue "30000000000" < U32_MOD →
           Part.init.set_value "30000000000"
             = .ok (Part.init.set_integer (natValue "30000000000")))) :=
  ⟨by decide, c2_set_value_wrap_spec "30000000000" (by decide)⟩

/-- Claim C3: the canonical string is claimed to omit a zero epoch when
the upstream contains no colon.  The code refutes this:
`debian::to_string` has no epoch suppression at all — it prints every
part from index `0` — so `0:1.0` (the claim's example) canonicalizes to
`0:1.0`, and `0:2.71.3z-rc32.5` canonicalizes to `0:2.71.3z-rc32.5`
where the repository's own test requires `2.71.3z-rc32.5`. -/
theorem c3_zero_epoch_reemitted :
    debianParse "0:1.0" = .ok debE0
    ∧ debianToString debE0 = .ok "0:1.0"
    ∧ debianParse "0:2.71.3z-rc32.5" = .ok debE1
    ∧ debianToString debE1 = .ok "0:2.71.3z-rc32.5" := by
  refine ⟨by decide, by decide, by decide, by decide⟩

/-- Claim C4 (counterexample): comparing the RPM versions `1.0` and
`1.a`, the second step reads integer `0` on the left and the non-empty
string `a` on the right; the claim's exception ("the integer is 0 and
the string is non-empty, the empty/0 side loses") would make the `0`
side lose, but `rpm::compare` returns `1` — the integer side wins. -/
theorem c4_rpm_zero_beats_string :
    rpmParse "1.0" = .ok rpmOneZero ∧ rpmParse "1.a" = .ok rpmOneA
    ∧ rpmCompare 100 rpmOneZero rpmOneA = some 1
    ∧ rpmCompare 100 rpmOneA rpmOneZero = some (-1) := by
  refine ⟨by decide, by decide, by decide, by decide⟩

/-- Claim C4 (amended): in an `rpm::compare` step whose sides read parts
of different kinds, the integer side is considered greater whenever its
value is non-zero or the other side's string is non-empty (so integer
`0` still beats a non-empty string); only an integer `0` against an
absent/empty string sub-part leaves the step undecided and the walk
continues. -/
theorem c4_rpm_mismatch_rule :
    (∀ (lint : Int) (lstr : String) (rint : Int) (rstr : String),
      rpmMismatchSign true lint lstr rint rstr
          = (if lint = 0 ∧ rstr = "" then none else some 1)
      ∧ rpmMismatchSign false lint lstr rint rstr
          = (if rint = 0 ∧ lstr = "" then none else some (-1)))
    ∧ rpmCompare 100 rpmOneZero rpmOneA = some 1 := by
  constructor
  · intro lint lstr rint rstr
    constructor
    · by_cases h : lint = 0 ∧ rstr = ""
      · have hno : ¬(lint ≠ 0 ∨ rstr ≠ "") := by tauto
        simp [rpmMismatchSign, hno, h]
      · have hyes : lint ≠ 0 ∨ rstr ≠ "" := by tauto
        simp [rpmMismatchSign, hyes, h]
    · by_cases h : rint = 0 ∧ lstr = ""
      · have hno : ¬(rint ≠ 0 ∨ lstr ≠ "") := by tauto
        simp [rpmMismatchSign, hno, h]
      · have hyes : rint ≠ 0 ∨ lstr ≠ "" := by tauto
        simp [rpmMismatchSign, hyes, h]
  · decide

/-- Claim C5: the order-table properties include
`compare("1.1-rc1", "1.1-rc2") < 0` (revision compared after upstream).
The code refutes this by non-termination: comparing two Debian versions
that both carry revision parts, the upstream walk of `debian::compare`
can neither consume the revision-typed parts nor exit (the exit needs
`lpos` past the left size), so the function never returns — for every
fuel, the embedded walk yields no result. -/
theorem c5_debian_revision_compare_diverges :
    debianParse "1.1-rc1" = .ok debRc1
    ∧ debianParse "1.1-rc2" = .ok debRc2
    ∧ ∀ fuel : Nat, debianCompare fuel debRc1 debRc2 = none := by
  refine ⟨by decide, by decide, fun fuel => ?_⟩
  have h0 : debianCompare fuel debRc1 debRc2
      = debianCompareLoop debRc1 debRc2 fuel NUL true 0 0 := rfl
  rw [h0]
  exact debRcLoopNone fuel

/-- Claim C6: for the Debian version `1.3.2` with no format set,
`next(4)` gives canonical `1.3.2.0.1`; `previous(4)` returns the exact
original part sequence (canonical `1.3.2`); a second `previous(4)` gives
`1.3.1.4294967295.4294967295` — the borrow propagates left and absent
positions fill with the default maximum `2^32 - 1`. -/
theorem c6_debian_next_previous_scenario :
    debianParse "1.3.2" = .ok debV132
    ∧ debianNext 4 none debV132 = .ok debV13201
    ∧ debianToString debV13201 = .ok "1.3.2.0.1"
    ∧ debianPrevious 4 none debV13201 = .ok debV132
    ∧ debianToString debV132 = .ok "1.3.2"
    ∧ debianPrevious 4 none debV132 = .ok debV131mm
    ∧ debianToString debV131mm = .ok "1.3.1.4294967295.4294967295" := by
  refine ⟨by decide, by decide, by decide, by decide, by decide, by decide, by decide⟩

/-- Claim C7: the Roman-numeral codec decodes `IIII` to `4`, encodes `4`
as `IV`, and encodes every `part_integer_t` value outside `[1, 3999]`
(in particular `0` and `4000`) as the empty string. -/
theorem c7_roman_codec :
    fromRomanNumber "IIII" = 4
    ∧ toRomanNumber 4 = "IV"
    ∧ ∀ v : Nat, v ≤ U32_MAX → (v = 0 ∨ 3999 < v) → toRomanNumber v = "" := by
  refine ⟨by decide, by decide, fun v _ h => ?_⟩
  unfold toRomanNumber
  rw [if_pos h]

/-- Claim C7 (witness): the out-of-range rule evaluated at `4000`
and at `0`. -/
theorem c7_roman_codec_witness :
    ((4000 : Nat) ≤ U32_MAX ∧ ((4000 : Nat) = 0 ∨ 3999 < 4000)
     ∧ toRomanNumber 4000 = "")
    ∧ ((0 : Nat) ≤ U32_MAX ∧ ((0 : Nat) = 0 ∨ 3999 < 0)
       ∧ toRomanNumber 0 = "") :=
  ⟨⟨by decide, by decide, c7_roman_codec.2.2 4000 (by decide) (by decide)⟩,
   ⟨by decide, by decide, c7_roman_codec.2.2 0 (by decide) (by decide)⟩⟩

/-- Claim C8: `trait::parse` rejects the empty string with the
empty-input error, and whenever the trait's `parse` reports failure,
`versiontheca::set_version` clears the part sequence and leaves the
façade in the invalid empty state. -/
theorem c8_parse_failure_clears :
    traitParse "" = .err "an empty input string cannot represent a valid version."
    ∧ ∀ (parseFn : String → CppResult (List Part)) (f : Facade) (v m : String),
        parseFn v = .err m → facadeSetVersion parseFn f v = some ⟨[], false⟩ := by
  refine ⟨rfl, fun parseFn f v m h => ?_⟩
  simp [facadeSetVersion, h]

/-- Claim C8 (witness): setting the empty version on a façade that held a
part leaves the cleared, invalid state. -/
theorem c8_parse_failure_clears_witness :
    traitParse "" = .err "an empty input string cannot represent a valid version."
    ∧ facadeSetVersion traitParse ⟨[Part.init], true⟩ "" = some ⟨[], false⟩ :=
  ⟨c8_parse_failure_clears.1,
   c8_parse_failure_clears.2 traitParse ⟨[Part.init], true⟩ ""
     "an empty input string cannot represent a valid version."
     c8_parse_failure_clears.1⟩

/-- Claim C9: the part sequence holds at most `MAX_PARTS = 25` parts:
`push_back` and `insert` on a full sequence throw `invalid_parameter`,
`resize` beyond `25` throws, `erase` of a non-existent index throws, and
every successful operation keeps the length at most `25`. -/
theorem c9_max_parts_invariant : ∀ (parts : List Part) (p : Part) (i sz : Nat),
    (parts.length = MAX_PARTS →
      pushBack parts p
          = .thrown "trying to append more parts when maximum was already reached."
      ∧ insertPart parts i p
          = .thrown "trying to insert more parts when maximum was already reached.")
    ∧ (parts.length ≤ i →
        erasePart parts i = .thrown "trying to erase a non-existant part.")
    ∧ (MAX_PARTS < sz → resizeParts parts sz = .thrown "requested too many parts.")
    ∧ (parts.length ≤ MAX_PARTS →
        (∀ ps, pushBack parts p = .ok ps → ps.length ≤ MAX_PARTS)
        ∧ (∀ ps, insertPart parts i p = .ok ps → ps.length ≤ MAX_PARTS)
        ∧ (∀ ps, erasePart parts i = .ok ps → ps.length ≤ MAX_PARTS)
        ∧ (∀ ps, resizeParts parts sz = .ok ps → ps.length ≤ MAX_PARTS)) := by
  intro parts p i sz
  refine ⟨fun hlen => ⟨?_, ?_⟩, fun hle => ?_, fun hsz => ?_,
    fun hb => ⟨fun ps hps => ?_, fun ps hps => ?_, fun ps hps => ?_, fun ps hps => ?_⟩⟩
  · simp [pushBack, hlen]
  · simp [insertPart, hlen]
  · simp [erasePart, hle]
  · simp [resizeParts, hsz]
  · by_cases hg : MAX_PARTS ≤ parts.length
    · simp [pushBack, hg] at hps
    · simp [pushBack, hg] at hps
      rw [← hps]
      simp
      omega
  · by_cases hg : MAX_PARTS ≤ parts.length
    · simp [insertPart, hg] at hps
    · simp [insertPart, hg] at hps
      rw [← hps]
      simp
      omega
  · by_cases hg : parts.length ≤ i
    · simp [erasePart, hg] at hps
    · simp [erasePart, hg] at hps
      rw [← hps]
      simp
      omega
  · by_cases hg : MAX_PARTS < sz
    · simp [resizeParts, hg] at hps
    · simp [resizeParts, hg] at hps
      rw [← hps]
      simp
      omega

/-- Claim C9 (witness): the bounds evaluated on a sequence of exactly
`25` parts, position `25` and requested size `26`. -/
theorem c9_max_parts_invariant_witness :
    (List.replicate 25 Part.init).length = MAX_PARTS
    ∧ pushBack (List.replicate 25 Part.init) Part.init
        = .thrown "trying to append more parts when maximum was already reached."
    ∧ insertPart (List.replicate 25 Part.init) 25 Part.init
        = .thrown "trying to insert more parts when maximum was already reached."
    ∧ erasePart (List.replicate 25 Part.init) 25
        = .thrown "trying to erase a non-existant part."
    ∧ resizeParts (List.replicate 25 Part.init) 26
        = .thrown "requested too many parts." := by
  have h := c9_max_parts_invariant (List.replicate 25 Part.init) Part.init 25 26
  exact ⟨by decide, (h.1 (by decide)).1, (h.1 (by decide)).2,
    h.2.1 (by decide), h.2.2.1 (by decide)⟩

/-- Claim C10: whenever the trait's `next` or `previous` reports failure
(for example the maximum or minimum limit), `versiontheca::next` /
`versiontheca::previous` clear the part sequence and mark the façade
invalid — the previous value is lost.  Instantiated on the Debian trait
with no format: `next(0)` on `1:4294967295` fails at the maximum limit
and `previous(0)` on `0.0` fails at the minimum limit, and both leave
the cleared invalid façade. -/
theorem c10_next_previous_failure_clears :
    (∀ (nextFn : Int → List Part → CppResult (List Part))
        (f : Facade) (pos : Int) (m : String),
      nextFn pos f.parts = .err m → facadeNext nextFn f pos = some ⟨[], false⟩)
    ∧ (∀ (prevFn : Int → List Part → CppResult (List Part))
        (f : Facade) (pos : Int) (m : String),
      prevFn pos f.parts = .err m → facadePrevious prevFn f pos = some ⟨[], false⟩)
    ∧ debianParse "1:4294967295" = .ok debEpochMax
    ∧ debianNext 0 none debEpochMax
        = .err "maximum limit reached; cannot increment version any further."
    ∧ facadeNext (fun pos ps => debianNext pos none ps) ⟨debEpochMax, true⟩ 0
        = some ⟨[], false⟩
    ∧ debianParse "0.0" = .ok debZeroZero
    ∧ debianPrevious 0 none debZeroZero
        = .err "minimum limit reached; cannot decrement version any further."
    ∧ facadePrevious (fun pos ps => debianPrevious pos none ps) ⟨debZeroZero, true⟩ 0
        = some ⟨[], false⟩ := by
  refine ⟨fun nextFn f pos m h => ?_, fun prevFn f pos m h => ?_,
    by decide, by decide, by decide, by decide, by decide, by decide⟩
  · simp [facadeNext, h]
  · simp [facadePrevious, h]

/-- Claim C10 (witness): the generic clearing rule applied at the
concrete failing Debian `next`. -/
theorem c10_next_previous_failure_clears_witness :
    facadeNext (fun pos ps => debianNext pos none ps) ⟨debEpochMax, true⟩ 0
      = some ⟨[], false⟩ :=
  c10_next_previous_failure_clears.1 (fun pos ps => debianNext pos none ps)
    ⟨debEpochMax, true⟩ 0
    "maximum limit reached; cannot increment version any further."
    c10_next_previous_failure_clears.2.2.2.1

end Versiontheca
